import Mathlib

/-!
Verification development for the thryve_app voice capture-and-transcription
pipeline.  The definitions below are shallow embeddings of:

* `parseVoiceTranscriptForMetrics` (src/components/VoiceEntryModal.tsx),
  including a small backtracking regular-expression engine covering exactly
  the constructs used by its ten patterns (ordered alternation of literals,
  greedy bounded repetition of a character class, greedy `+`, greedy `?`,
  capture groups), with JavaScript `String.match` leftmost-match semantics;
* `recordAudio`, `speechToText` and `fallbackSpeechToText`
  (src/lib/elevenlabs.ts), with browser facilities (microphone, fetch,
  Web Speech API) supplied as explicit environment records;
* the `elevenlabs-stt` edge-function request handler
  (src/supabase/functions/elevenlabs-stt/index.ts); payload bytes are
  abstracted to their byte counts because the handler branches only on
  lengths and forwards the content to the upstream service, which is
  modelled as an environment oracle;
* `handleMicPress` (src/components/VoiceEntryModal.tsx), as a transition
  function on the component's `VoiceState` returning the reached state and
  the ordered list of observable side effects.

Strings are modelled as `List Char`; `String.toLowerCase` is modelled by
`Char.toLower` (they agree on the Basic Latin range, which is all the
patterns inspect).
-/

set_option maxRecDepth 8000

abbrev Str := List Char

/-- JavaScript `\d`: the ASCII digits. -/
def isDigitChar (c : Char) : Bool :=
  ('0' ≤ c && c ≤ '9')

/-- JavaScript `\s`: ECMAScript WhiteSpace and LineTerminator code points. -/
def isSpaceChar (c : Char) : Bool :=
  (c = ' ' || c = '\t' || c = '\n' || c.val = 11 || c.val = 12 || c = '\r' ||
   c.val = 0xa0 || c.val = 0x1680 || (0x2000 ≤ c.val && c.val ≤ 0x200a) ||
   c.val = 0x2028 || c.val = 0x2029 || c.val = 0x202f || c.val = 0x205f ||
   c.val = 0x3000 || c.val = 0xfeff)

/-- Regular expressions, restricted to the constructs appearing in the
source patterns.  `rep lo hi p` is greedy `p{lo,hi}` over a character
class, `star1 p` is greedy `p+` over a character class, `opt` is greedy
`?`, `alt` is ordered alternation, `grp` is a numbered capture group
(the source groups are never nested and never under `alt`/`opt`). -/
inductive RE where
  | lit : Str → RE
  | cat : RE → RE → RE
  | alt : RE → RE → RE
  | opt : RE → RE
  | rep : Nat → Nat → (Char → Bool) → RE
  | star1 : (Char → Bool) → RE
  | grp : RE → RE

/-- Number of leading characters of `s` satisfying `p`. -/
def countLeading (p : Char → Bool) : Str → Nat
  | [] => 0
  | c :: cs => if p c then countLeading p cs + 1 else 0

/-- All ways a regex can match a prefix of the input, as
`(consumed, rest, captures)` triples, listed in backtracking priority
order (ordered alternation, greedy quantifiers). -/
def matchList : RE → Str → List (Str × Str × List Str)
  | .lit l, s =>
      if l.isPrefixOf s then [(l, s.drop l.length, [])] else []
  | .cat r1 r2, s =>
      (matchList r1 s).flatMap fun w1 =>
        (matchList r2 w1.2.1).map fun w2 =>
          (w1.1 ++ w2.1, w2.2.1, w1.2.2 ++ w2.2.2)
  | .alt r1 r2, s => matchList r1 s ++ matchList r2 s
  | .opt r, s => matchList r s ++ [([], s, [])]
  | .rep lo hi p, s =>
      if min hi (countLeading p s) < lo then []
      else (List.range (min hi (countLeading p s) + 1 - lo)).map fun i =>
        (s.take (min hi (countLeading p s) - i),
         s.drop (min hi (countLeading p s) - i), [])
  | .star1 p, s =>
      (List.range (countLeading p s)).map fun i =>
        (s.take (countLeading p s - i), s.drop (countLeading p s - i), [])
  | .grp r, s =>
      (matchList r s).map fun w => (w.1, w.2.1, w.2.2 ++ [w.1])

/-- JavaScript `text.match(re)` (no global flag): the backtracking match at
the leftmost position where one exists; returns the capture-group values
(`match[1]`, `match[2]`, ...). -/
def search (r : RE) : Str → Option (List Str)
  | [] =>
      match matchList r [] with
      | w :: _ => some w.2.2
      | [] => none
  | s@(_ :: cs) =>
      match matchList r s with
      | w :: _ => some w.2.2
      | [] => search r cs

/-- Pattern piece `\s+`. -/
def reSp : RE := RE.star1 isSpaceChar

/-- Pattern piece `(?:is\s+)?`. -/
def reIsOpt : RE := RE.opt (RE.cat (RE.lit ("is").data) reSp)

/-- Pattern piece `(\d{2,3})`. -/
def reNum23 : RE := RE.grp (RE.rep 2 3 isDigitChar)

/-- Pattern piece `(\d{2,3}(?:\.\d+)?)`. -/
def reNum23Dec : RE :=
  RE.grp (RE.cat (RE.rep 2 3 isDigitChar)
    (RE.opt (RE.cat (RE.lit (".").data) (RE.star1 isDigitChar))))

/-- Source pattern `/(?:blood pressure|bp|pressure)\s+(?:is\s+)?(\d{2,3})\s+(?:over|\/)\s+(\d{2,3})/i`. -/
def bpPattern1 : RE :=
  RE.cat (RE.alt (RE.lit ("blood pressure").data)
           (RE.alt (RE.lit ("bp").data) (RE.lit ("pressure").data)))
    (RE.cat reSp (RE.cat reIsOpt
      (RE.cat reNum23 (RE.cat reSp
        (RE.cat (RE.alt (RE.lit ("over").data) (RE.lit ("/").data))
          (RE.cat reSp reNum23))))))

/-- Source pattern `/(\d{2,3})\s+(?:over|\/)\s+(\d{2,3})/i`. -/
def bpPattern2 : RE :=
  RE.cat reNum23 (RE.cat reSp
    (RE.cat (RE.alt (RE.lit ("over").data) (RE.lit ("/").data))
      (RE.cat reSp reNum23)))

/-- Source pattern `/(?:heart rate|pulse|hr)\s+(?:is\s+)?(\d{2,3})/i`. -/
def hrPattern1 : RE :=
  RE.cat (RE.alt (RE.lit ("heart rate").data)
           (RE.alt (RE.lit ("pulse").data) (RE.lit ("hr").data)))
    (RE.cat reSp (RE.cat reIsOpt reNum23))

/-- Source pattern `/(\d{2,3})\s+(?:beats per minute|bpm)/i`. -/
def hrPattern2 : RE :=
  RE.cat reNum23 (RE.cat reSp
    (RE.alt (RE.lit ("beats per minute").data) (RE.lit ("bpm").data)))

/-- Source pattern `/(?:weight|weigh)\s+(?:is\s+)?(\d{2,3}(?:\.\d+)?)/i`. -/
def weightPattern1 : RE :=
  RE.cat (RE.alt (RE.lit ("weight").data) (RE.lit ("weigh").data))
    (RE.cat reSp (RE.cat reIsOpt reNum23Dec))

/-- Source pattern `/(\d{2,3}(?:\.\d+)?)\s+(?:pounds|lbs|kilograms|kg)/i`. -/
def weightPattern2 : RE :=
  RE.cat reNum23Dec (RE.cat reSp
    (RE.alt (RE.lit ("pounds").data)
      (RE.alt (RE.lit ("lbs").data)
        (RE.alt (RE.lit ("kilograms").data) (RE.lit ("kg").data)))))

/-- Source pattern `/(?:blood glucose|blood sugar|glucose|sugar)\s+(?:is\s+)?(\d{2,3})/i`. -/
def bgPattern1 : RE :=
  RE.cat (RE.alt (RE.lit ("blood glucose").data)
           (RE.alt (RE.lit ("blood sugar").data)
             (RE.alt (RE.lit ("glucose").data) (RE.lit ("sugar").data))))
    (RE.cat reSp (RE.cat reIsOpt reNum23))

/-- Source pattern `/(\d{2,3})\s+(?:mg\/dl|milligrams)/i`. -/
def bgPattern2 : RE :=
  RE.cat reNum23 (RE.cat reSp
    (RE.alt (RE.lit ("mg/dl").data) (RE.lit ("milligrams").data)))

/-- Source pattern `/(?:temperature|temp)\s+(?:is\s+)?(\d{2,3}(?:\.\d+)?)/i`. -/
def tempPattern1 : RE :=
  RE.cat (RE.alt (RE.lit ("temperature").data) (RE.lit ("temp").data))
    (RE.cat reSp (RE.cat reIsOpt reNum23Dec))

/-- Source pattern `/(\d{2,3}(?:\.\d+)?)\s+(?:degrees|fahrenheit|celsius)/i`. -/
def tempPattern2 : RE :=
  RE.cat reNum23Dec (RE.cat reSp
    (RE.alt (RE.lit ("degrees").data)
      (RE.alt (RE.lit ("fahrenheit").data) (RE.lit ("celsius").data))))

/-- JavaScript `hay.includes(needle)`: substring containment. -/
def jsIncludes : Str → Str → Bool
  | [], needle => needle.isEmpty
  | hay@(_ :: t), needle => needle.isPrefixOf hay || jsIncludes t needle

/-- One `for (const pattern of patterns)` loop of the extractor:
`text.match(pattern)`, and on a match whose first capture passes `cond`
the loop records it (`break`); otherwise the next pattern is tried. -/
def tryPatterns (cond : Str → Bool) : List RE → Str → Option (List Str)
  | [], _ => none
  | p :: ps, text =>
      match search p text with
      | some caps =>
          if cond (caps.getD 0 []) then some caps else tryPatterns cond ps text
      | none => tryPatterns cond ps text

/-- The `metrics` record built by `parseVoiceTranscriptForMetrics`; a `none`
field is an absent key. -/
structure Metrics where
  blood_pressure : Option Str := none
  heart_rate : Option Str := none
  weight : Option Str := none
  blood_glucose : Option Str := none
  temperature : Option Str := none
deriving DecidableEq

/-- Blood-pressure step: first of `bpPatterns` that matches wins, the value
recorded is `` `${match[1]}/${match[2]}` ``. -/
def bpRule (text : Str) : Option Str :=
  (tryPatterns (fun _ => true) [bpPattern1, bpPattern2] text).map fun caps =>
    caps.getD 0 [] ++ '/' :: caps.getD 1 []

/-- Heart-rate step: a pattern's match is recorded only if
`!metrics.blood_pressure?.includes(match[1])`. -/
def hrRule (bp : Option Str) (text : Str) : Option Str :=
  (tryPatterns
      (fun m1 => !(match bp with | some v => jsIncludes v m1 | none => false))
      [hrPattern1, hrPattern2] text).map fun caps => caps.getD 0 []

/-- Weight step: no condition on the match. -/
def weightRule (text : Str) : Option Str :=
  (tryPatterns (fun _ => true) [weightPattern1, weightPattern2] text).map
    fun caps => caps.getD 0 []

/-- Blood-glucose step: a pattern's match is recorded only if
`!Object.values(metrics).includes(match[1])` (exact string membership in
the values recorded so far, passed as `prev`). -/
def bgRule (prev : List Str) (text : Str) : Option Str :=
  (tryPatterns (fun m1 => !prev.contains m1) [bgPattern1, bgPattern2]
      text).map fun caps => caps.getD 0 []

/-- Temperature step: same condition as the glucose step. -/
def tempRule (prev : List Str) (text : Str) : Option Str :=
  (tryPatterns (fun m1 => !prev.contains m1) [tempPattern1, tempPattern2]
      text).map fun caps => caps.getD 0 []

/-- Model of `Object.values(metrics)` before the glucose step: the values of the
keys inserted by the first three rules, in insertion order. -/
def glucosePrevValues (text : Str) : List Str :=
  (bpRule text).toList ++ (hrRule (bpRule text) text).toList ++
    (weightRule text).toList

/-- Model of `parseVoiceTranscriptForMetrics` (src/components/VoiceEntryModal.tsx):
lowercases the transcript, then runs the five metric rules in order. -/
def parseVoiceTranscriptForMetrics (transcript : Str) : Metrics :=
  let text := transcript.map Char.toLower
  let bp := bpRule text
  let hr := hrRule bp text
  let wt := weightRule text
  let bg := bgRule (bp.toList ++ hr.toList ++ wt.toList) text
  let temp := tempRule (bp.toList ++ hr.toList ++ wt.toList ++ bg.toList) text
  { blood_pressure := bp, heart_rate := hr, weight := wt,
    blood_glucose := bg, temperature := temp }

/-- A transcript segment (`{start, end, text}`); `end` is a Lean keyword,
so the field is named `stop`. -/
structure Segment where
  start : Nat
  stop : Nat
  text : Str
deriving DecidableEq

/-- The client-side `TranscriptionResult` interface (src/lib/elevenlabs.ts):
`text` is required, the other fields are optional. -/
structure TranscriptionResult where
  text : Str
  segments : Option (List Segment) := none
  language : Option Str := none
  duration : Option Nat := none
deriving DecidableEq

/-- JavaScript `opt || dflt` for an optional string (the empty string is
falsy). -/
def jsStrOr (o : Option Str) (d : Str) : Str :=
  match o with
  | some s => if s.isEmpty then d else s
  | none => d

/-- Outcome of `navigator.mediaDevices.getUserMedia`, by thrown error
name. -/
inductive GumErr where
  | notAllowed
  | notFound
  | notSupportedErr
  | other (message : Str)
deriving DecidableEq

/-- Browser facilities consumed by `recordAudio`: availability flags, the
permission outcome, a possible `MediaRecorder` `onerror` event, and the
`ondataavailable` chunks delivered during the recording. -/
structure RecordEnv where
  mediaDevicesAvailable : Bool
  getUserMedia : Except GumErr Unit
  mediaRecorderAvailable : Bool
  recorderError : Option Str
  dataChunks : List (List Nat)

/-- Model of `recordAudio` (src/lib/elevenlabs.ts): acquires the microphone, records
chunks, and on stop concatenates them; chunks only enter `chunks` when
`event.data.size > 0`, `hasData` tracks whether any did, and a capture
that collected nothing rejects instead of resolving empty. -/
def recordAudio (env : RecordEnv) : Except Str (List Nat) :=
  if !env.mediaDevicesAvailable then
    .error ("Voice recording is not supported in this browser. Please use a modern browser like Chrome, Firefox, or Safari.").data
  else
    match env.getUserMedia with
    | .error .notAllowed =>
        .error ("Microphone access denied. Please allow microphone permissions in your browser settings and try again.").data
    | .error .notFound =>
        .error ("No microphone found. Please connect a microphone and try again.").data
    | .error .notSupportedErr =>
        .error ("Audio recording is not supported in this browser. Please use a modern browser.").data
    | .error (.other m) => .error m
    | .ok _ =>
      if !env.mediaRecorderAvailable then
        .error ("Audio recording is not supported in this browser.").data
      else
        match env.recorderError with
        | some m => .error m
        | none =>
          if (env.dataChunks.filter fun c => c.length > 0).isEmpty then
            .error ("No audio data was recorded. Please check your microphone permissions and speak clearly.").data
          else if (env.dataChunks.filter fun c => c.length > 0).flatten.length = 0 then
            .error ("No audio data recorded. Please speak clearly and try again.").data
          else .ok ((env.dataChunks.filter fun c => c.length > 0).flatten)

/-- Web Speech API error codes surfaced by a recognition session. -/
inductive WebSpeechErr where
  | noSpeech
  | audioCapture
  | notAllowed
  | network
  | other
deriving DecidableEq

/-- The message `fallbackSpeechToText` rejects with for each recognition
error code (src/lib/elevenlabs.ts, `recognition.onerror`). -/
def webSpeechErrMessage : WebSpeechErr → Str
  | .noSpeech => ("No speech detected. Please speak clearly and try again.").data
  | .audioCapture => ("Microphone not accessible. Please check your microphone permissions.").data
  | .notAllowed => ("Microphone access denied. Please allow microphone permissions and try again.").data
  | .network => ("Network error occurred. Please check your internet connection.").data
  | .other => ("Speech recognition failed. Please try again.").data

/-- The JSON body shape the client reads from the transcription endpoint:
each field may be absent. -/
structure RemoteBody where
  text : Option Str := none
  segments : Option (List Segment) := none
  duration : Option Nat := none
deriving DecidableEq

/-- Response of the edge function as seen by the client `fetch`: an HTTP
status and the body that `response.json()` yields (`.error m` if parsing
the body throws with message `m`). -/
structure HttpResp where
  status : Nat
  jsonBody : Except Str RemoteBody

/-- Model of `response.ok`: status in the 2xx range. -/
def respOk (r : HttpResp) : Bool := 200 ≤ r.status && r.status < 300

/-- Environment of one `speechToText` call: the capture environment, the
outcome of the `fetch` to the edge function, whether the Web Speech API
exists, whether `recognition.start()` succeeds, and the recognition
outcome. -/
structure SpeechToTextEnv where
  record : RecordEnv
  fetchResult : Except Str HttpResp
  webSpeechAvailable : Bool
  recognitionStartOk : Bool
  recognitionResult : Except WebSpeechErr Str

/-- Observable calls made during `speechToText`, in order. -/
inductive ClientEffect where
  | callRecordAudio
  | callRemoteStt
  | callWebSpeechFallback
deriving DecidableEq

/-- Model of `fallbackSpeechToText` (src/lib/elevenlabs.ts): one-shot Web Speech API
recognition; rejects when the API is missing, when `start()` throws, or
with the mapped message of the recognition error; resolves with the
transcript and `duration: 0`. -/
def fallbackSpeechToText (env : SpeechToTextEnv) (language : Option Str) :
    Except Str TranscriptionResult :=
  if !env.webSpeechAvailable then
    .error ("Speech recognition is not supported in this browser. Please use Chrome, Edge, or Safari.").data
  else if !env.recognitionStartOk then
    .error ("Failed to start speech recognition. Please try again.").data
  else
    match env.recognitionResult with
    | .ok transcript =>
        .ok { text := transcript,
              language := some (jsStrOr language ("en-US").data),
              duration := some 0 }
    | .error e => .error (webSpeechErrMessage e)

/-- The `catch` block at the bottom of `speechToText`: rewrites the error
message by substring tests, passing through messages that contain
`not supported`. -/
def speechToTextCatchMap (m : Str) : Str :=
  if jsIncludes m ("User denied").data || jsIncludes m ("not-allowed").data then
    ("Microphone access denied. Please allow microphone permissions and try again.").data
  else if jsIncludes m ("network").data || jsIncludes m ("fetch").data then
    ("Network error. Please check your internet connection and try again.").data
  else if jsIncludes m ("No audio data").data then
    ("No speech detected. Please speak clearly and try again.").data
  else if jsIncludes m ("not supported").data then m
  else ("Voice recording failed. Please try again.").data

/-- The inner `try` of `speechToText`: record, reject empty captures,
post the audio to the edge function, and normalize the response
(`result.text || ''`, `result.duration || 0`, segments passed through). -/
def speechToTextRemote (env : SpeechToTextEnv) (language : Option Str) :
    Except Str TranscriptionResult × List ClientEffect :=
  match recordAudio env.record with
  | .error m => (.error m, [.callRecordAudio])
  | .ok buf =>
    if buf.length = 0 then
      (.error ("No audio data recorded. Please check your microphone permissions and try again.").data,
       [.callRecordAudio])
    else
      match env.fetchResult with
      | .error m => (.error m, [.callRecordAudio, .callRemoteStt])
      | .ok resp =>
        if !respOk resp then
          (.error (("ElevenLabs STT service unavailable: ").data ++
             Nat.toDigits 10 resp.status),
           [.callRecordAudio, .callRemoteStt])
        else
          match resp.jsonBody with
          | .error m => (.error m, [.callRecordAudio, .callRemoteStt])
          | .ok rb =>
              (.ok { text := rb.text.getD [],
                     language := some (jsStrOr language ("en").data),
                     duration := some (rb.duration.getD 0),
                     segments := rb.segments },
               [.callRecordAudio, .callRemoteStt])

/-- Model of `speechToText` (src/lib/elevenlabs.ts): try the remote path; on any
failure of it run `fallbackSpeechToText`; a fallback rejection is mapped
by the outer `catch`. -/
def speechToText (env : SpeechToTextEnv) (language : Option Str) :
    Except Str TranscriptionResult × List ClientEffect :=
  match speechToTextRemote env language with
  | (.ok r, tr) => (.ok r, tr)
  | (.error _, tr) =>
      match fallbackSpeechToText env language with
      | .ok r => (.ok r, tr ++ [.callWebSpeechFallback])
      | .error m =>
          (.error (speechToTextCatchMap m), tr ++ [.callWebSpeechFallback])

/-- The constant `MAX_AUDIO_SIZE` (src/supabase/functions/elevenlabs-stt/index.ts). -/
def MAX_AUDIO_SIZE : Nat := 2 * 1024 * 1024

/-- A `multipart/form-data` file field: the handler reads only its size
and (via `arrayBuffer()`, which may fail) its contents, which are
forwarded to the upstream oracle, so the bytes are abstracted to the
count `size`. -/
structure FormFile where
  size : Nat
  readOk : Bool := true

/-- The form-data variant of a request to the endpoint. -/
structure FormReq where
  file : Option FormFile := none
  modelParam : Option Str := none
  langParam : Option Str := none
  timestampParam : Option Str := none
  formatParam : Option Str := none

/-- The base64 `audio` field of a JSON request: `len` is
`audio.length` (the base64 character count) and `decodedLen` the length
of `atob(audio)` (`none` when `atob` throws). -/
structure B64 where
  len : Nat
  decodedLen : Option Nat := none

/-- The JSON variant of a request to the endpoint. -/
structure JsonReq where
  audio : Option B64 := none
  model_id : Option Str := none
  language : Option Str := none
  timestamp_granularities : Option (List Str) := none
  response_format : Option Str := none

/-- A parsed request: form data, or a JSON body (`json none` when the
body is not valid JSON). -/
inductive SttRequest where
  | form (r : FormReq)
  | json (parsed : Option JsonReq)

/-- The JSON the upstream ASR service returns on success; every field may
be absent or of the wrong type, in which case it is modelled as `none`. -/
structure UpstreamJson where
  text : Option Str := none
  segments : Option (List Segment) := none
  language : Option Str := none
  duration : Option Nat := none

/-- Outcome of the `fetch` to the upstream ASR service: an abort (the 30s
timeout), a network error, or a response with a status and a body
(`none` when `response.json()` throws). -/
inductive UpstreamOutcome where
  | abortTimeout
  | networkErr
  | resp (status : Nat) (body : Option UpstreamJson)

/-- Server-side environment: whether `ELEVENLABS_API_KEY` is configured
and the upstream call outcome. -/
structure ServeEnv where
  apiKeyConfigured : Bool
  upstream : UpstreamOutcome

/-- Body of an endpoint response: an `{error}` object or the normalized
transcription result. -/
inductive SttBody where
  | err (msg : Str)
  | result (text : Str) (segments : List Segment) (language : Str) (duration : Nat)
deriving DecidableEq

/-- An endpoint response: HTTP status plus body. -/
structure HttpOut where
  status : Nat
  body : SttBody
deriving DecidableEq

/-- Observable steps of the handler, in order. -/
inductive ServeEffect where
  | decodeBase64
  | callUpstream
deriving DecidableEq

/-- The size-limit error body for form uploads
(`Audio file too large. Maximum size is ${MAX_AUDIO_SIZE / (1024*1024)}MB`). -/
def sizeErrFile : HttpOut :=
  ⟨400, .err ("Audio file too large. Maximum size is 2MB").data⟩

/-- The size-limit error body for base64 payloads. -/
def sizeErrData : HttpOut :=
  ⟨400, .err ("Audio data too large. Maximum size is 2MB").data⟩

/-- The `response.status === 401` branch of the handler. -/
def invalidCredentialsResponse : HttpOut :=
  ⟨401, .err ("Invalid API key").data⟩

/-- The `response.status === 429` branch of the handler. -/
def rateLimitedResponse : HttpOut :=
  ⟨429, .err ("Rate limit exceeded. Please try again later.").data⟩

/-- The `response.status >= 500` branch of the handler. -/
def serviceUnavailableResponse : HttpOut :=
  ⟨503, .err ("Speech service temporarily unavailable").data⟩

/-- The residual non-2xx branch of the handler: the upstream status is
passed through with a generic error. -/
def transcriptionFailedResponse (status : Nat) : HttpOut :=
  ⟨status, .err ("Failed to transcribe speech").data⟩

/-- Everything the handler does once the audio byte count and language
are known: the empty/oversize re-checks, the API-key check, the upstream
call, the status mapping and the output normalization
(src/supabase/functions/elevenlabs-stt/index.ts, from the
`Final size validation` comment to the end of `serve`). -/
def processAudio (byteLen : Nat) (language : Str) (env : ServeEnv)
    (effs : List ServeEffect) : HttpOut × List ServeEffect :=
  if byteLen = 0 then
    (⟨400, .err ("Audio data is empty").data⟩, effs)
  else if byteLen > MAX_AUDIO_SIZE then
    (sizeErrData, effs)
  else if !env.apiKeyConfigured then
    (⟨500, .err ("ElevenLabs API key not configured").data⟩, effs)
  else
    let effs := effs ++ [ServeEffect.callUpstream]
    match env.upstream with
    | .abortTimeout =>
        (⟨408, .err ("Request timeout - audio processing took too long").data⟩, effs)
    | .networkErr =>
        (⟨503, .err ("Network error connecting to speech service").data⟩, effs)
    | .resp status body =>
      if !(200 ≤ status && status < 300) then
        if status = 401 then (invalidCredentialsResponse, effs)
        else if status = 429 then (rateLimitedResponse, effs)
        else if status ≥ 500 then (serviceUnavailableResponse, effs)
        else (transcriptionFailedResponse status, effs)
      else
        match body with
        | none =>
            (⟨502, .err ("Invalid response from speech service").data⟩, effs)
        | some tj =>
            (⟨200, .result (tj.text.getD []) (tj.segments.getD [])
                (tj.language.getD language) (tj.duration.getD 0)⟩, effs)

/-- The `elevenlabs-stt` edge-function request handler
(src/supabase/functions/elevenlabs-stt/index.ts): parses the request
(form data or JSON), validates presence and size of the audio payload
before decoding or forwarding it, then hands off to `processAudio`.
The CORS preflight branch and the `FormData`-construction `try` (whose
pure operations cannot fail) are not modelled. -/
def serveStt (req : SttRequest) (env : ServeEnv) : HttpOut × List ServeEffect :=
  match req with
  | .form r =>
    match r.file with
    | none => (⟨400, .err ("Audio file is required").data⟩, [])
    | some f =>
      if f.size > MAX_AUDIO_SIZE then (sizeErrFile, [])
      else if !f.readOk then
        (⟨400, .err ("Failed to read audio file").data⟩, [])
      else processAudio f.size (jsStrOr r.langParam ("en").data) env []
  | .json none => (⟨400, .err ("Invalid JSON in request body").data⟩, [])
  | .json (some jr) =>
    match jr.audio with
    | none => (⟨400, .err ("Audio data is required").data⟩, [])
    | some b =>
      if 3 * b.len > 4 * MAX_AUDIO_SIZE then (sizeErrData, [])
      else
        match b.decodedLen with
        | none =>
            (⟨400, .err ("Invalid base64 audio data").data⟩,
             [ServeEffect.decodeBase64])
        | some dlen =>
          if dlen > MAX_AUDIO_SIZE then
            (sizeErrData, [ServeEffect.decodeBase64])
          else
            processAudio dlen (jsStrOr jr.language ("en").data) env
              [ServeEffect.decodeBase64]

/-- The component's `VoiceState` (src/components/VoiceEntryModal.tsx). -/
inductive VoiceState where
  | idle
  | recording
  | processing
  | success
  | error
deriving DecidableEq

/-- Observable side effects of one `handleMicPress` run, in order. -/
inductive UiEffect where
  | alertUpgradeRequired
  | requestMicPermission
  | runSpeechRecognition
  | emitMetrics (m : Metrics)
deriving DecidableEq

/-- Browser facilities consumed by one `handleMicPress` run. -/
structure MicEnv where
  mediaDevicesSupported : Bool
  permissionGranted : Bool
  speechResult : Except Str Str

/-- JavaScript `String.prototype.trim`. -/
def jsTrim (s : Str) : Str :=
  ((s.dropWhile fun c => isSpaceChar c).reverse.dropWhile fun c =>
    isSpaceChar c).reverse

/-- Model of `Object.keys(metrics).length`. -/
def metricsCount (m : Metrics) : Nat :=
  (if m.blood_pressure.isSome then 1 else 0) +
  (if m.heart_rate.isSome then 1 else 0) +
  (if m.weight.isSome then 1 else 0) +
  (if m.blood_glucose.isSome then 1 else 0) +
  (if m.temperature.isSome then 1 else 0)

/-- Model of `handleMicPress` (src/components/VoiceEntryModal.tsx): the premium
gate, the re-entrancy guard, then microphone access, speech recognition
and extraction.  Returns the `voiceState` reached when the handler
settles together with the ordered observable effects; the timer-driven
later reset to `idle` and the user-facing message strings are not part
of the model. -/
def handleMicPress (premium : Bool) (st : VoiceState) (env : MicEnv) :
    VoiceState × List UiEffect :=
  if !premium then (st, [UiEffect.alertUpgradeRequired])
  else if !(st = VoiceState.idle || st = VoiceState.error) then (st, [])
  else if !env.mediaDevicesSupported then (VoiceState.error, [])
  else if !env.permissionGranted then
    (VoiceState.error, [UiEffect.requestMicPermission])
  else
    match env.speechResult with
    | .error _ =>
        (VoiceState.error,
         [UiEffect.requestMicPermission, UiEffect.runSpeechRecognition])
    | .ok transcript =>
      if (jsTrim transcript).isEmpty then
        (VoiceState.error,
         [UiEffect.requestMicPermission, UiEffect.runSpeechRecognition])
      else
        let parsed := parseVoiceTranscriptForMetrics transcript
        if metricsCount parsed > 0 then
          (VoiceState.success,
           [UiEffect.requestMicPermission, UiEffect.runSpeechRecognition,
            UiEffect.emitMetrics parsed])
        else
          (VoiceState.error,
           [UiEffect.requestMicPermission, UiEffect.runSpeechRecognition])

/-- A value recorded by `tryPatterns` always passed its condition. -/
theorem tryPatterns_cond {cond : Str → Bool} :
    ∀ {ps : List RE} {text : Str} {caps : List Str},
      tryPatterns cond ps text = some caps → cond (caps.getD 0 []) = true := by
  intro ps
  induction ps with
  | nil => intro text caps h; simp [tryPatterns] at h
  | cons p ps ih =>
      intro text caps h
      simp only [tryPatterns] at h
      split at h
      · split at h
        · cases h
          assumption
        · exact ih h
      · exact ih h

/-- Number of capture groups a regex contributes to every match, when that
number is the same along all alternatives (`none` otherwise). -/
def capsExact : RE → Option Nat
  | .lit _ => some 0
  | .cat r1 r2 =>
      (capsExact r1).bind fun a => (capsExact r2).map fun b => a + b
  | .alt r1 r2 =>
      (capsExact r1).bind fun a =>
        (capsExact r2).bind fun b => if a = b then some a else none
  | .opt r => (capsExact r).bind fun a => if a = 0 then some 0 else none
  | .rep _ _ _ => some 0
  | .star1 _ => some 0
  | .grp r => (capsExact r).map fun k => k + 1

/-- Every way listed by `matchList` carries exactly `capsExact` captures. -/
theorem matchList_capsLen {r : RE} {k : Nat} (hk : capsExact r = some k) :
    ∀ {s : Str} {w : Str × Str × List Str}, w ∈ matchList r s →
      w.2.2.length = k := by
  induction r generalizing k with
  | lit l =>
      intro s w hw
      simp only [capsExact, Option.some.injEq] at hk
      unfold matchList at hw
      split at hw
      · simp only [List.mem_singleton] at hw
        subst hw
        simp [hk.symm]
      · simp at hw
  | cat r1 r2 ih1 ih2 =>
      intro s w hw
      simp only [capsExact, Option.bind_eq_some, Option.map_eq_some'] at hk
      obtain ⟨a, ha, b, hb, hab⟩ := hk
      unfold matchList at hw
      simp only [List.mem_flatMap, List.mem_map] at hw
      obtain ⟨w1, hw1, w2, hw2, rfl⟩ := hw
      simp [ih1 ha hw1, ih2 hb hw2, ← hab]
  | alt r1 r2 ih1 ih2 =>
      intro s w hw
      simp only [capsExact, Option.bind_eq_some] at hk
      obtain ⟨a, ha, b, hb, hab⟩ := hk
      by_cases hab' : a = b
      · rw [if_pos hab'] at hab
        cases hab
        unfold matchList at hw
        rcases List.mem_append.mp hw with h1 | h2
        · exact ih1 ha h1
        · exact hab' ▸ ih2 hb h2
      · rw [if_neg hab'] at hab
        cases hab
  | opt r ih =>
      intro s w hw
      simp only [capsExact, Option.bind_eq_some] at hk
      obtain ⟨a, ha, hab⟩ := hk
      by_cases ha0 : a = 0
      · rw [if_pos ha0] at hab
        cases hab
        unfold matchList at hw
        rcases List.mem_append.mp hw with h1 | h2
        · exact ha0 ▸ ih ha h1
        · simp only [List.mem_singleton] at h2
          subst h2
          rfl
      · rw [if_neg ha0] at hab
        cases hab
  | rep lo hi p =>
      intro s w hw
      simp only [capsExact, Option.some.injEq] at hk
      unfold matchList at hw
      split at hw
      · simp at hw
      · simp only [List.mem_map] at hw
        obtain ⟨i, _, rfl⟩ := hw
        simp [hk.symm]
  | star1 p =>
      intro s w hw
      simp only [capsExact, Option.some.injEq] at hk
      unfold matchList at hw
      simp only [List.mem_map] at hw
      obtain ⟨i, _, rfl⟩ := hw
      simp [hk.symm]
  | grp r ih =>
      intro s w hw
      simp only [capsExact, Option.map_eq_some'] at hk
      obtain ⟨a, ha, hab⟩ := hk
      unfold matchList at hw
      simp only [List.mem_map] at hw
      obtain ⟨w', hw', rfl⟩ := hw
      simp [ih ha hw', ← hab]

/-- A successful `search` returns exactly `capsExact` captures. -/
theorem search_capsLen {r : RE} {k : Nat} (hk : capsExact r = some k) :
    ∀ {s : Str} {caps : List Str}, search r s = some caps →
      caps.length = k := by
  intro s
  induction s with
  | nil =>
      intro caps h
      unfold search at h
      cases hm : matchList r [] with
      | nil => rw [hm] at h; cases h
      | cons w ws =>
          rw [hm] at h
          cases h
          exact matchList_capsLen hk (hm ▸ List.mem_cons_self w ws)
  | cons c cs ih =>
      intro caps h
      unfold search at h
      cases hm : matchList r (c :: cs) with
      | nil => rw [hm] at h; exact ih h
      | cons w ws =>
          rw [hm] at h
          cases h
          exact matchList_capsLen hk (hm ▸ List.mem_cons_self w ws)

/-- A successful `tryPatterns` over patterns that all have `capsExact = k`
returns exactly `k` captures. -/
theorem tryPatterns_capsLen {cond : Str → Bool} {k : Nat} :
    ∀ {ps : List RE}, (∀ p ∈ ps, capsExact p = some k) →
      ∀ {text : Str} {caps : List Str},
        tryPatterns cond ps text = some caps → caps.length = k := by
  intro ps
  induction ps with
  | nil => intro _ text caps h; simp [tryPatterns] at h
  | cons p ps ih =>
      intro hps text caps h
      simp only [tryPatterns] at h
      split at h
      next c hs =>
        split at h
        · cases h
          exact search_capsLen (hps p (List.mem_cons_self p ps)) hs
        · exact ih (fun q hq => hps q (List.mem_cons_of_mem p hq)) h
      next hs => exact ih (fun q hq => hps q (List.mem_cons_of_mem p hq)) h

/-- A prefix is found by `jsIncludes`. -/
theorem jsIncludes_of_pre {hay needle : Str} (h : needle <+: hay) :
    jsIncludes hay needle = true := by
  cases hay with
  | nil =>
      obtain ⟨t, ht⟩ := h
      rcases List.append_eq_nil.mp ht with ⟨rfl, rfl⟩
      rfl
  | cons a t =>
      have hp : needle.isPrefixOf (a :: t) = true :=
        ( List.isPrefixOf_iff_prefix).mpr h
      simp [jsIncludes, hp]

/-- A contiguous substring is found by `jsIncludes`, exactly as JavaScript
`String.prototype.includes` finds it. -/
theorem jsIncludes_of_sub {hay needle : Str} (h : needle <:+: hay) :
    jsIncludes hay needle = true := by
  obtain ⟨s, t, rfl⟩ := h
  induction s with
  | nil => exact jsIncludes_of_pre ⟨t, rfl⟩
  | cons a s ih =>
      show jsIncludes (a :: (s ++ needle ++ t)) needle = true
      simp only [jsIncludes, Bool.or_eq_true]
      exact Or.inr ih

/-- A buffer resolved by `recordAudio` is never empty. -/
theorem recordAudio_ok_pos {env : RecordEnv} {buf : List Nat}
    (h : recordAudio env = .ok buf) : 0 < buf.length := by
  unfold recordAudio at h
  repeat' split at h
  any_goals exact Except.noConfusion h
  rename_i hne
  injection h with h'
  subst h'
  omega

/-- If a recording collects zero bytes in total, no chunk passes the
`event.data.size > 0` push condition. -/
theorem filter_pos_of_flatten_zero {l : List (List Nat)}
    (h : l.flatten.length = 0) : l.filter (fun c => c.length > 0) = [] := by
  induction l with
  | nil => rfl
  | cons c cs ih =>
      simp only [List.flatten_cons, List.length_append] at h
      have hc : c.length = 0 := by omega
      have hcs : cs.flatten.length = 0 := by omega
      simp [List.filter_cons, hc, ih hcs]

/-- Both blood-pressure patterns have exactly two capture groups. -/
theorem capsExact_bp : capsExact bpPattern1 = some 2 ∧ capsExact bpPattern2 = some 2 := by
  constructor <;> rfl

/-- Both heart-rate patterns have exactly one capture group. -/
theorem capsExact_hr : capsExact hrPattern1 = some 1 ∧ capsExact hrPattern2 = some 1 := by
  constructor <;> rfl

/-- With an unconditional record step, a second pattern that matches
guarantees the two-pattern loop records something. -/
theorem tryPatterns_true_isSome {p1 p2 : RE} {text : Str}
    (h : (search p2 text).isSome = true) :
    ∃ caps, tryPatterns (fun _ => true) [p1, p2] text = some caps := by
  cases hs1 : search p1 text with
  | some c => exact ⟨c, by simp [tryPatterns, hs1]⟩
  | none =>
      obtain ⟨c0, hc0⟩ := Option.isSome_iff_exists.mp h
      exact ⟨c0, by simp [tryPatterns, hs1, hc0]⟩

/-- A list of length two is literally a pair. -/
theorem list_len_two {α : Type} {l : List α} (h : l.length = 2) :
    ∃ a b, l = [a, b] := by
  match l, h with
  | [a, b], _ => exact ⟨a, b, rfl⟩

/-- C1: for every transcript in which the bare `N over M` / `N/M`
blood-pressure pattern is recognizable, `parseVoiceTranscriptForMetrics`
records `blood_pressure` as the slash-joined string of the matched pair,
and `heart_rate` is never that pair's systolic (`N`) or diastolic (`M`)
component. -/
theorem extract_bp_never_hr (t : Str)
    (h : (search bpPattern2 (t.map Char.toLower)).isSome = true) :
    ∃ n m : Str,
      (parseVoiceTranscriptForMetrics t).blood_pressure = some (n ++ '/' :: m) ∧
      (parseVoiceTranscriptForMetrics t).heart_rate ≠ some n ∧
      (parseVoiceTranscriptForMetrics t).heart_rate ≠ some m := by
  obtain ⟨caps, htry⟩ :=
    @tryPatterns_true_isSome bpPattern1 bpPattern2 (t.map Char.toLower) h
  have hlen : caps.length = 2 := by
    refine tryPatterns_capsLen ?_ htry
    intro p hp
    rcases List.mem_pair.mp hp with rfl | rfl
    · exact capsExact_bp.1
    · exact capsExact_bp.2
  obtain ⟨n, m, rfl⟩ := list_len_two hlen
  have hbp : bpRule (t.map Char.toLower) = some (n ++ '/' :: m) := by
    simp [bpRule, htry]
  refine ⟨n, m, hbp, ?_, ?_⟩
  · intro heq
    have heq' : hrRule (bpRule (t.map Char.toLower)) (t.map Char.toLower)
        = some n := heq
    obtain ⟨c, hc, hgd⟩ := Option.map_eq_some'.mp heq'
    have hcond := tryPatterns_cond hc
    rw [hgd, hbp] at hcond
    have hsub : n <:+: n ++ '/' :: m := ⟨[], '/' :: m, by simp⟩
    simp [jsIncludes_of_sub hsub] at hcond
  · intro heq
    have heq' : hrRule (bpRule (t.map Char.toLower)) (t.map Char.toLower)
        = some m := heq
    obtain ⟨c, hc, hgd⟩ := Option.map_eq_some'.mp heq'
    have hcond := tryPatterns_cond hc
    rw [hgd, hbp] at hcond
    have hsub : m <:+: n ++ '/' :: m := ⟨n ++ ['/'], [], by simp⟩
    simp [jsIncludes_of_sub hsub] at hcond

/-- Witness for C1 at the transcript `120 over 80 pulse 72`. -/
theorem extract_bp_never_hr_witness :
    (search bpPattern2 (("120 over 80 pulse 72").data.map Char.toLower)).isSome = true ∧
    (∃ n m : Str,
      (parseVoiceTranscriptForMetrics (("120 over 80 pulse 72").data)).blood_pressure
        = some (n ++ '/' :: m) ∧
      (parseVoiceTranscriptForMetrics (("120 over 80 pulse 72").data)).heart_rate
        ≠ some n ∧
      (parseVoiceTranscriptForMetrics (("120 over 80 pulse 72").data)).heart_rate
        ≠ some m) :=
  ⟨by decide, extract_bp_never_hr (("120 over 80 pulse 72").data) (by decide)⟩

/-- C2: the weight rule checks no prior consumption: whenever a weight
pattern matches the number `n`, `weight = n` is recorded, even when `n`
is a component of the recorded blood-pressure string or equals the
recorded heart rate. -/
theorem weight_ignores_prior_claims (t : Str) (n : Str)
    (hw : weightRule (t.map Char.toLower) = some n)
    (_hclash :
      (∃ v, (parseVoiceTranscriptForMetrics t).blood_pressure = some v ∧ n <:+: v) ∨
      (parseVoiceTranscriptForMetrics t).heart_rate = some n) :
    (parseVoiceTranscriptForMetrics t).weight = some n := hw

/-- Witness for C2 at `120 over 80 weight 80`: the weight 80 is the
diastolic component of the recorded pair and is still recorded. -/
theorem weight_ignores_prior_claims_witness :
    weightRule (("120 over 80 weight 80").data.map Char.toLower) = some (("80").data) ∧
    (parseVoiceTranscriptForMetrics (("120 over 80 weight 80").data)).blood_pressure
      = some (("120/80").data) ∧
    (parseVoiceTranscriptForMetrics (("120 over 80 weight 80").data)).weight
      = some (("80").data) :=
  ⟨by decide, by decide,
   weight_ignores_prior_claims (("120 over 80 weight 80").data) (("80").data)
     (by decide)
     (Or.inl ⟨("120/80").data, by decide, ("120/").data, [], by decide⟩)⟩

/-- C3 counterexample: in `blood pressure 120 over 80 sugar 120` the
matched glucose number 120 is the systolic component of the recorded
blood-pressure pair `120/80`, yet `blood_glucose = 120` is recorded:
the de-duplication compares against whole previously-extracted value
strings, so a component of the pair never blocks the glucose rule. -/
theorem glucose_component_counterexample :
    (parseVoiceTranscriptForMetrics
        (("blood pressure 120 over 80 sugar 120").data)).blood_pressure
      = some (("120").data ++ '/' :: ("80").data) ∧
    (parseVoiceTranscriptForMetrics
        (("blood pressure 120 over 80 sugar 120").data)).blood_glucose
      = some (("120").data) := by
  exact ⟨by decide, by decide⟩

/-- C3 (amended): the glucose step skips a matched number only when it
exactly equals one of the previously extracted value strings (the whole
`N/M` blood-pressure string, the heart-rate string or the weight
string); when a glucose alternative matches a number passing that test,
`blood_glucose` is recorded as that number. -/
theorem glucose_dedup_exact_values (t : Str) :
    (∀ n, (parseVoiceTranscriptForMetrics t).blood_glucose = some n →
      ¬ n ∈ glucosePrevValues (t.map Char.toLower)) ∧
    (∀ caps,
      tryPatterns
          (fun m1 => !(glucosePrevValues (t.map Char.toLower)).contains m1)
          [bgPattern1, bgPattern2] (t.map Char.toLower) = some caps →
      (parseVoiceTranscriptForMetrics t).blood_glucose
        = some (caps.getD 0 [])) := by
  constructor
  · intro n heq hmem
    have heq' : bgRule (glucosePrevValues (t.map Char.toLower))
        (t.map Char.toLower) = some n := heq
    obtain ⟨c, hc, hgd⟩ := Option.map_eq_some'.mp heq'
    have hcond := tryPatterns_cond hc
    rw [hgd] at hcond
    have hcont : (glucosePrevValues (t.map Char.toLower)).contains n = true :=
      List.elem_eq_true_of_mem hmem
    rw [hcont] at hcond
    simp at hcond
  · intro caps h
    show bgRule (glucosePrevValues (t.map Char.toLower))
        (t.map Char.toLower) = some (caps.getD 0 [])
    unfold bgRule
    rw [h]
    rfl

/-- Witness for C3 (amended) at `blood pressure 120 over 80 sugar 120`. -/
theorem glucose_dedup_exact_values_witness :
    ¬ (("120").data ∈ glucosePrevValues
        (("blood pressure 120 over 80 sugar 120").data.map Char.toLower)) ∧
    (parseVoiceTranscriptForMetrics
        (("blood pressure 120 over 80 sugar 120").data)).blood_glucose
      = some ([("120").data].getD 0 []) :=
  ⟨(glucose_dedup_exact_values (("blood pressure 120 over 80 sugar 120").data)).1
      (("120").data) (by decide),
   (glucose_dedup_exact_values (("blood pressure 120 over 80 sugar 120").data)).2
      [("120").data] (by decide)⟩

/-- When a pattern's match fails the recording condition, the loop falls
through to the remaining patterns. -/
theorem tryPatterns_skip {cond : Str → Bool} {p : RE} {ps : List RE}
    {text : Str} {caps : List Str} (hs : search p text = some caps)
    (hc : cond (caps.getD 0 []) = false) :
    tryPatterns cond (p :: ps) text = tryPatterns cond ps text := by
  simp only [tryPatterns, hs]
  rw [if_neg (by simpa using hc)]

/-- C10: the heart-rate exclusion is substring containment on the recorded
blood-pressure string: a first-alternative heart-rate match whose number
is any substring of that string is skipped (the loop falls through to
the second alternative) and that number is never recorded as the heart
rate. -/
theorem hr_exclusion_is_substring (t : Str) (v : Str) (caps1 : List Str)
    (hbp : (parseVoiceTranscriptForMetrics t).blood_pressure = some v)
    (h1 : search hrPattern1 (t.map Char.toLower) = some caps1)
    (hsub : caps1.getD 0 [] <:+: v) :
    (parseVoiceTranscriptForMetrics t).heart_rate =
      (tryPatterns
        (fun m1 => !(match bpRule (t.map Char.toLower) with
                     | some w => jsIncludes w m1
                     | none => false))
        [hrPattern2] (t.map Char.toLower)).map (fun caps => caps.getD 0 []) ∧
    (parseVoiceTranscriptForMetrics t).heart_rate ≠ some (caps1.getD 0 []) := by
  have hbp' : bpRule (t.map Char.toLower) = some v := hbp
  have hcond : (fun m1 => !(match bpRule (t.map Char.toLower) with
      | some w => jsIncludes w m1
      | none => false)) (caps1.getD 0 []) = false := by
    show (!(match bpRule (t.map Char.toLower) with
      | some w => jsIncludes w (caps1.getD 0 [])
      | none => false)) = false
    rw [hbp']
    show (!(jsIncludes v (caps1.getD 0 []))) = false
    rw [jsIncludes_of_sub hsub]
    rfl
  constructor
  · show hrRule (bpRule (t.map Char.toLower)) (t.map Char.toLower) = _
    unfold hrRule
    rw [tryPatterns_skip h1 hcond]
  · intro heq
    have heq' : hrRule (bpRule (t.map Char.toLower)) (t.map Char.toLower)
        = some (caps1.getD 0 []) := heq
    obtain ⟨c, hc, hgd⟩ := Option.map_eq_some'.mp heq'
    have hcond' := tryPatterns_cond hc
    rw [hgd] at hcond'
    have hinc := jsIncludes_of_sub hsub
    simp only [List.getD_eq_getElem?_getD] at hinc
    simp [hbp', hinc] at hcond'

/-- Witness for C10 at `120 over 80 pulse 20`: the matched pulse number 20
is a proper substring of `120/80` (it is neither 120 nor 80) and is
skipped; no heart rate is recorded. -/
theorem hr_exclusion_is_substring_witness :
    ((parseVoiceTranscriptForMetrics (("120 over 80 pulse 20").data)).heart_rate =
      (tryPatterns
        (fun m1 => !(match bpRule (("120 over 80 pulse 20").data.map Char.toLower) with
                     | some w => jsIncludes w m1
                     | none => false))
        [hrPattern2] (("120 over 80 pulse 20").data.map Char.toLower)).map
          (fun caps => caps.getD 0 []) ∧
     (parseVoiceTranscriptForMetrics (("120 over 80 pulse 20").data)).heart_rate
       ≠ some ([("20").data].getD 0 [])) ∧
    (parseVoiceTranscriptForMetrics (("120 over 80 pulse 20").data)).heart_rate
      = none :=
  ⟨hr_exclusion_is_substring (("120 over 80 pulse 20").data) (("120/80").data)
      [("20").data] (by decide) (by decide)
      ⟨("1").data, ("/80").data, by decide⟩,
   by decide⟩

/-- C9: a mic tap by a non-premium user is rejected synchronously: the
state is unchanged, the only effect is the upgrade-required alert, and
in particular no microphone permission request is ever issued. -/
theorem premium_gate_blocks_permission (st : VoiceState) (env : MicEnv) :
    handleMicPress false st env = (st, [UiEffect.alertUpgradeRequired]) ∧
    UiEffect.requestMicPermission ∉ (handleMicPress false st env).2 := by
  refine ⟨rfl, ?_⟩
  simp [handleMicPress]

/-- C4: if the audio was captured but the remote speech-to-text path fails
(fetch rejection, or any non-2xx response such as HTTP 429) and the
Web Speech API is available, `speechToText` runs the in-browser fallback
before surfacing anything, and a successful fallback recognition makes
the whole call succeed with the fallback transcript. -/
theorem speechToText_falls_back (env : SpeechToTextEnv) (language : Option Str)
    (buf : List Nat) (hrec : recordAudio env.record = .ok buf)
    (hfail : (∃ m, env.fetchResult = .error m) ∨
             (∃ resp, env.fetchResult = .ok resp ∧ respOk resp = false))
    (havail : env.webSpeechAvailable = true) :
    ClientEffect.callWebSpeechFallback ∈ (speechToText env language).2 ∧
    (∀ s, env.recognitionStartOk = true → env.recognitionResult = .ok s →
      (speechToText env language).1 =
        .ok { text := s, language := some (jsStrOr language (("en-US").data)),
              duration := some 0, segments := none }) := by
  have hpos := recordAudio_ok_pos hrec
  have hne : ¬ buf.length = 0 := by omega
  have hrem : ∃ m', speechToTextRemote env language =
      (.error m', [ClientEffect.callRecordAudio, ClientEffect.callRemoteStt]) := by
    rcases hfail with ⟨m, hm⟩ | ⟨resp, hresp, hok⟩
    · exact ⟨m, by simp [speechToTextRemote, hrec, hm, hne]⟩
    · exact ⟨("ElevenLabs STT service unavailable: ").data ++
          Nat.toDigits 10 resp.status,
        by simp [speechToTextRemote, hrec, hresp, hok, hne]⟩
  obtain ⟨m', hrem⟩ := hrem
  constructor
  · cases hfb : fallbackSpeechToText env language with
    | ok r => simp [speechToText, hrem, hfb]
    | error m => simp [speechToText, hrem, hfb]
  · intro s h1 h2
    have hfb : fallbackSpeechToText env language =
        .ok { text := s, language := some (jsStrOr language (("en-US").data)),
              duration := some 0, segments := none } := by
      simp [fallbackSpeechToText, havail, h1, h2]
    simp [speechToText, hrem, hfb]

/-- The environment of the C4 witness: a working microphone, a remote
endpoint answering HTTP 429, and a working Web Speech API. -/
def c4Env : SpeechToTextEnv :=
  { record := { mediaDevicesAvailable := true, getUserMedia := .ok (),
                mediaRecorderAvailable := true, recorderError := none,
                dataChunks := [[1, 2]] },
    fetchResult := .ok { status := 429, jsonBody := .ok {} },
    webSpeechAvailable := true,
    recognitionStartOk := true,
    recognitionResult := .ok (("hello world").data) }

/-- Witness for C4: a 429 from the remote service leads to a fallback
attempt and a successful overall transcription. -/
theorem speechToText_falls_back_witness :
    recordAudio c4Env.record = .ok [1, 2] ∧
    respOk { status := 429, jsonBody := Except.ok {} } = false ∧
    ClientEffect.callWebSpeechFallback ∈ (speechToText c4Env none).2 ∧
    (speechToText c4Env none).1 =
      .ok { text := ("hello world").data, language := some (("en-US").data),
            duration := some 0, segments := none } := by
  have h := speechToText_falls_back c4Env none [1, 2] rfl
    (Or.inr ⟨{ status := 429, jsonBody := .ok {} }, rfl, rfl⟩) rfl
  exact ⟨rfl, rfl, h.1, h.2 (("hello world").data) rfl rfl⟩

/-- C5: for every non-2xx upstream response reached through a valid JSON
request, the endpoint maps 401 to the invalid-credentials response, 429
to the rate-limited response, any status at least 500 to the 503
service-unavailable response, and every other non-2xx status to the
generic transcription-failed response carrying that status. -/
theorem stt_endpoint_status_mapping (jr : JsonReq) (b : B64) (dlen : Nat)
    (env : ServeEnv) (st : Nat) (body : Option UpstreamJson)
    (haud : jr.audio = some b) (hdec : b.decodedLen = some dlen)
    (hest : 3 * b.len ≤ 4 * MAX_AUDIO_SIZE) (hpos : 0 < dlen)
    (hmax : dlen ≤ MAX_AUDIO_SIZE) (hkey : env.apiKeyConfigured = true)
    (hup : env.upstream = .resp st body) (h2xx : ¬(200 ≤ st ∧ st < 300)) :
    (st = 401 → (serveStt (.json (some jr)) env).1 = invalidCredentialsResponse) ∧
    (st = 429 → (serveStt (.json (some jr)) env).1 = rateLimitedResponse) ∧
    (500 ≤ st → (serveStt (.json (some jr)) env).1 = serviceUnavailableResponse) ∧
    (st ≠ 401 → st ≠ 429 → st < 500 →
      (serveStt (.json (some jr)) env).1 = transcriptionFailedResponse st) := by
  have h1 : ¬ 3 * b.len > 4 * MAX_AUDIO_SIZE := by omega
  have h2 : ¬ dlen > MAX_AUDIO_SIZE := by omega
  have hz : ¬ dlen = 0 := by omega
  have hb : (200 ≤ st && st < 300) = false := by
    cases hcase : (200 ≤ st && st < 300 : Bool)
    · rfl
    · rw [Bool.and_eq_true] at hcase
      exact absurd ⟨by simpa using hcase.1, by simpa using hcase.2⟩ h2xx
  have hmap : (serveStt (.json (some jr)) env).1 =
      (if st = 401 then invalidCredentialsResponse
       else if st = 429 then rateLimitedResponse
       else if st ≥ 500 then serviceUnavailableResponse
       else transcriptionFailedResponse st) := by
    simp [serveStt, haud, hdec, h1, h2, processAudio, hz, hkey, hup, hb]
    by_cases ha : st = 401 <;> by_cases hb2 : st = 429 <;>
      by_cases hc : 500 ≤ st <;> simp [ha, hb2, hc]
  refine ⟨?_, ?_, ?_, ?_⟩
  · intro h; subst h; rw [hmap]; simp
  · intro h; subst h; rw [hmap]; simp
  · intro h
    rw [hmap, if_neg (by omega), if_neg (by omega), if_pos h]
  · intro hn1 hn2 hn3
    rw [hmap, if_neg hn1, if_neg hn2, if_neg (by omega)]

/-- Witness for C5: a 429 upstream response yields the rate-limited
response. -/
theorem stt_endpoint_status_mapping_witness :
    (serveStt (.json (some { audio := some { len := 4, decodedLen := some 3 } }))
        { apiKeyConfigured := true, upstream := .resp 429 none }).1
      = rateLimitedResponse := by
  have h := stt_endpoint_status_mapping
    { audio := some { len := 4, decodedLen := some 3 } }
    { len := 4, decodedLen := some 3 } 3
    { apiKeyConfigured := true, upstream := .resp 429 none } 429 none
    rfl rfl (by decide) (by decide) (by decide) rfl rfl (by omega)
  exact h.2.1 rfl

/-- C6: every payload over the 2 MiB ceiling is rejected with the size
error before any upstream call: form files by their size before reading,
base64 payloads by the `len*3/4` estimate before decoding, and the
decoded byte count is re-validated after decoding. -/
theorem stt_endpoint_size_rejection :
    (∀ (r : FormReq) (f : FormFile) (env : ServeEnv), r.file = some f →
      MAX_AUDIO_SIZE < f.size →
      serveStt (.form r) env = (sizeErrFile, [])) ∧
    (∀ (jr : JsonReq) (b : B64) (env : ServeEnv), jr.audio = some b →
      4 * MAX_AUDIO_SIZE < 3 * b.len →
      serveStt (.json (some jr)) env = (sizeErrData, [])) ∧
    (∀ (jr : JsonReq) (b : B64) (dlen : Nat) (env : ServeEnv),
      jr.audio = some b → b.decodedLen = some dlen → MAX_AUDIO_SIZE < dlen →
      (serveStt (.json (some jr)) env).1 = sizeErrData ∧
      ServeEffect.callUpstream ∉ (serveStt (.json (some jr)) env).2) := by
  refine ⟨?_, ?_, ?_⟩
  · intro r f env hf hsz
    simp [serveStt, hf, hsz]
  · intro jr b env hb hsz
    simp [serveStt, hb, hsz]
  · intro jr b dlen env hb hd hsz
    by_cases hest : 3 * b.len > 4 * MAX_AUDIO_SIZE
    · constructor <;> simp [serveStt, hb, hest]
    · constructor <;> simp [serveStt, hb, hd, hest, hsz]

/-- Witness for C6: a 2 MiB + 1 form file, an oversize base64 string, and
an oversize decoded payload are all rejected without an upstream call. -/
theorem stt_endpoint_size_rejection_witness :
    serveStt (.form { file := some { size := 2097153 } })
        { apiKeyConfigured := true, upstream := .networkErr }
      = (sizeErrFile, []) ∧
    serveStt (.json (some { audio := some { len := 2796203 } }))
        { apiKeyConfigured := true, upstream := .networkErr }
      = (sizeErrData, []) ∧
    ((serveStt (.json (some { audio := some { len := 4, decodedLen := some 2097153 } }))
        { apiKeyConfigured := true, upstream := .networkErr }).1 = sizeErrData ∧
     ServeEffect.callUpstream ∉
       (serveStt (.json (some { audio := some { len := 4, decodedLen := some 2097153 } }))
         { apiKeyConfigured := true, upstream := .networkErr }).2) :=
  ⟨stt_endpoint_size_rejection.1 _ _ _ rfl (by decide),
   stt_endpoint_size_rejection.2.1 _ _ _ rfl (by decide),
   stt_endpoint_size_rejection.2.2 _ _ _ _ rfl rfl (by decide)⟩

/-- C7: a recording session that collects zero audio bytes rejects with
the empty-capture error, and every buffer `recordAudio` resolves with
has positive byte length. -/
theorem recordAudio_rejects_empty_capture (env : RecordEnv) :
    (env.mediaDevicesAvailable = true → env.getUserMedia = .ok () →
     env.mediaRecorderAvailable = true → env.recorderError = none →
     env.dataChunks.flatten.length = 0 →
     recordAudio env =
       .error ("No audio data was recorded. Please check your microphone permissions and speak clearly.").data) ∧
    (∀ buf, recordAudio env = .ok buf → 0 < buf.length) := by
  constructor
  · intro h1 h2 h3 h4 h5
    have hf := filter_pos_of_flatten_zero h5
    simp [recordAudio, h1, h2, h3, h4, hf]
  · intro buf h
    exact recordAudio_ok_pos h

/-- A recording environment whose data events all carry zero bytes. -/
def c7EmptyEnv : RecordEnv :=
  { mediaDevicesAvailable := true, getUserMedia := .ok (),
    mediaRecorderAvailable := true, recorderError := none,
    dataChunks := [[], []] }

/-- A recording environment delivering three bytes in two chunks. -/
def c7GoodEnv : RecordEnv :=
  { mediaDevicesAvailable := true, getUserMedia := .ok (),
    mediaRecorderAvailable := true, recorderError := none,
    dataChunks := [[3], [4, 5]] }

/-- Witness for C7: the zero-byte session rejects with the empty-capture
error, and the session that resolves does so with a non-empty buffer. -/
theorem recordAudio_rejects_empty_capture_witness :
    recordAudio c7EmptyEnv =
      .error ("No audio data was recorded. Please check your microphone permissions and speak clearly.").data ∧
    0 < [3, 4, 5].length :=
  ⟨(recordAudio_rejects_empty_capture c7EmptyEnv).1 rfl rfl rfl rfl rfl,
   (recordAudio_rejects_empty_capture c7GoodEnv).2 [3, 4, 5] rfl⟩

/-- C8: a 2xx upstream response with any partially-shaped JSON body is
normalized by the endpoint: missing `text` becomes the empty string,
missing `segments` the empty list, missing `duration` zero (and missing
`language` the request language). -/
theorem stt_endpoint_output_normalization (jr : JsonReq) (b : B64) (dlen : Nat)
    (env : ServeEnv) (st : Nat) (uj : UpstreamJson)
    (haud : jr.audio = some b) (hdec : b.decodedLen = some dlen)
    (hest : 3 * b.len ≤ 4 * MAX_AUDIO_SIZE) (hpos : 0 < dlen)
    (hmax : dlen ≤ MAX_AUDIO_SIZE) (hkey : env.apiKeyConfigured = true)
    (hup : env.upstream = .resp st (some uj)) (h2xx : 200 ≤ st ∧ st < 300) :
    (serveStt (.json (some jr)) env).1 =
      ⟨200, .result (uj.text.getD []) (uj.segments.getD [])
        (uj.language.getD (jsStrOr jr.language (("en").data)))
        (uj.duration.getD 0)⟩ := by
  have h1 : ¬ 3 * b.len > 4 * MAX_AUDIO_SIZE := by omega
  have h2 : ¬ dlen > MAX_AUDIO_SIZE := by omega
  have hz : ¬ dlen = 0 := by omega
  have hb : (200 ≤ st && st < 300) = true := by
    rw [Bool.and_eq_true]
    exact ⟨by simpa using h2xx.1, by simpa using h2xx.2⟩
  simp [serveStt, haud, hdec, h1, h2, processAudio, hz, hkey, hup, hb]

/-- Witness for C8: an upstream body with every field absent yields empty
text, no segments, the request language and duration zero. -/
theorem stt_endpoint_output_normalization_witness :
    (serveStt (.json (some { audio := some { len := 4, decodedLen := some 3 } }))
        { apiKeyConfigured := true, upstream := .resp 200 (some {}) }).1
      = ⟨200, .result [] [] (("en").data) 0⟩ :=
  stt_endpoint_output_normalization
    { audio := some { len := 4, decodedLen := some 3 } }
    { len := 4, decodedLen := some 3 } 3
    { apiKeyConfigured := true, upstream := .resp 200 (some {}) }
    200 {} rfl rfl (by decide) (by decide) (by decide) rfl rfl
    ⟨by decide, by decide⟩
